import Mathlib

/-!
Verification of the Asylo trusted/untrusted boundary core.

This file gives a shallow embedding, in Lean, of the parts of the Asylo
repository relevant to its specification: the enclave lifecycle state machine
of `asylo/platform/core/trusted_application.cc`, the parent-side fork
confirmation wait of `asylo/platform/arch/sgx/untrusted/ocalls.cc`, and the
ECDSA key subsystem exercised by `asylo/crypto/ecdsa_signing_key_test.h`.
Pure fragments of the C++ become Lean functions; the mutable enclave state is
passed explicitly; results of external collaborators (protobuf parsing, the
user-supplied init/run/fini hooks, the OS calls `select`/`read`) are inputs of
the embedded functions.
-/

namespace Asylo

/-- Error codes of `asylo::error::GoogleError` used by the embedded code. -/
inductive ErrorCode where
  | ok
  | invalidArgument
  | failedPrecondition
  | internal
  | unimplemented
  | unauthenticated
deriving DecidableEq, Repr

/-- Enclave lifecycle states, in declaration order, from
`TrustedApplication::State` (`trusted_application.h`). -/
inductive EnclaveState where
  | kUninitialized
  | kInternalInitializing
  | kUserInitializing
  | kRunning
  | kFinalizing
  | kFinalized
deriving DecidableEq, Repr

/-- Numeric value of an `EnclaveState` enumerator, used where the C++ compares
states with `<` / `>`. -/
def EnclaveState.idx : EnclaveState → Nat
  | .kUninitialized => 0
  | .kInternalInitializing => 1
  | .kUserInitializing => 2
  | .kRunning => 3
  | .kFinalizing => 4
  | .kFinalized => 5

/-- Diagnostic payload of a `Status`.  The state-mismatch message built by
`absl::StrCat("Enclave is in state: ", enclave_state_, " expected state: ",
expected_state)` is embedded structurally so that the two states it carries are
explicit. -/
inductive StatusMessage where
  | text (s : String)
  | stateMismatch (current expected : EnclaveState)
deriving DecidableEq, Repr

/-- `asylo::Status`: an error code plus diagnostic message. -/
structure Status where
  code : ErrorCode
  message : StatusMessage
deriving DecidableEq, Repr

/-- `Status::OkStatus()`. -/
def okStatus : Status := ⟨.ok, .text ""⟩

/-- `Status::ok()`. -/
def Status.isOk (s : Status) : Bool := s.code = .ok

/-- `asylo::StatusOr<T>`. -/
inductive StatusOr (α : Type) where
  | ok (value : α)
  | error (status : Status)
deriving DecidableEq, Repr

/-- Error code of a `StatusOr` result (`ErrorCode.ok` on success). -/
def StatusOr.code : StatusOr α → ErrorCode
  | .ok _ => .ok
  | .error s => s.code

/-- The mutable state of `TrustedApplication` relevant to the lifecycle
contract: the `enclave_state_` field guarded by `mutex_`.  The embedding is
sequential, so the mutex is dropped and each method returns the updated
application. -/
structure TrustedApplication where
  enclave_state_ : EnclaveState
deriving DecidableEq, Repr

/-- `TrustedApplication::VerifyAndSetState` (trusted_application.cc:185-195):
under the lock, if the current state differs from `expected_state` return a
`FAILED_PRECONDITION` status carrying both states and mutate nothing;
otherwise set the state to `new_state` and return OK. -/
def TrustedApplication.VerifyAndSetState (app : TrustedApplication)
    (expected_state new_state : EnclaveState) : Status × TrustedApplication :=
  if app.enclave_state_ ≠ expected_state then
    (⟨.failedPrecondition, .stateMismatch app.enclave_state_ expected_state⟩,
      app)
  else
    (okStatus, { app with enclave_state_ := new_state })

/-- `TrustedApplication::GetState` (trusted_application.cc:197-200). -/
def TrustedApplication.GetState (app : TrustedApplication) : EnclaveState :=
  app.enclave_state_

/-- `TrustedApplication::SetState` (trusted_application.cc:202-205). -/
def TrustedApplication.SetState (app : TrustedApplication)
    (state : EnclaveState) : TrustedApplication :=
  { app with enclave_state_ := state }

/-- `TrustedApplication::InitializeInternal` (trusted_application.cc:249-275).
IO setup, environment variables, logging and assertion authorities only log
warnings on failure; the returnable steps are the
`VerifyAndSetState(kInternalInitializing, kUserInitializing)` transition and
the user-supplied `Initialize(config)` hook, whose result is the parameter
`user_init_result`. -/
def TrustedApplication.InitializeInternal (app : TrustedApplication)
    (user_init_result : Status) : Status × TrustedApplication :=
  let r := app.VerifyAndSetState .kInternalInitializing .kUserInitializing
  if r.1.code ≠ .ok then r
  else (user_init_result, r.2)

/-- `__asylo_user_init` (trusted_application.cc:317-350), after the output
argument check.  `config_parses` is the result of
`EnclaveConfig::ParseFromArray`; `user_init_result` is the result of the
user-supplied `Initialize` hook.  Returns the status serialized back to the
untrusted caller and the application state afterwards. -/
def asylo_user_init (app : TrustedApplication) (config_parses : Bool)
    (user_init_result : Status) : Status × TrustedApplication :=
  if !config_parses then
    (⟨.invalidArgument, .text "Failed to parse EnclaveConfig"⟩, app)
  else
    let r := app.VerifyAndSetState .kUninitialized .kInternalInitializing
    if r.1.code ≠ .ok then r
    else
      let r2 := r.2.InitializeInternal user_init_result
      if r2.1.code ≠ .ok then (r2.1, r2.2.SetState .kUninitialized)
      else (r2.1, r2.2.SetState .kRunning)

/-- `__asylo_user_fini` (trusted_application.cc:382-413), after the output
argument check.  `final_parses` is the result of
`EnclaveFinal::ParseFromArray`; `user_fini_result` is the result of the
user-supplied `Finalize` hook. -/
def asylo_user_fini (app : TrustedApplication) (final_parses : Bool)
    (user_fini_result : Status) : Status × TrustedApplication :=
  if !final_parses then
    (⟨.invalidArgument, .text "Failed to parse EnclaveFinal"⟩, app)
  else
    let r := app.VerifyAndSetState .kRunning .kFinalizing
    if r.1.code ≠ .ok then r
    else (user_fini_result, r.2.SetState .kFinalized)

/-- Environment of one `__asylo_handle_signal` call: the results of the
external collaborators it consults. -/
structure SignalDelivery where
  /-- Result of `EnclaveSignal::ParseFromArray`. -/
  signal_parses : Bool
  /-- `FromBridgeSignal(signal.signum())`, negative when untranslatable. -/
  bridged_signum : Int
  /-- Signals blocked in the enclave mask, `SignalManager::GetSignalMask`. -/
  mask : List Int
  /-- Whether `SignalManager::HandleSignal` returns OK. -/
  handle_ok : Bool
deriving DecidableEq, Repr

/-- `__asylo_handle_signal` (trusted_application.cc:415-451).  Returns the
entry point's return code together with whether
`SignalManager::HandleSignal` (the enclave-side handler) was invoked. -/
def asylo_handle_signal (app : TrustedApplication) (d : SignalDelivery) :
    Int × Bool :=
  if !d.signal_parses then (1, false)
  else if app.GetState.idx < EnclaveState.kRunning.idx ∨
      EnclaveState.kFinalizing.idx < app.GetState.idx then (2, false)
  else if d.bridged_signum < 0 then (1, false)
  else if d.bridged_signum ∈ d.mask then (-1, false)
  else if d.handle_ok then (0, true)
  else (1, true)

/-! ### Parent-side fork confirmation wait

`ocall_enc_untrusted_fork` (`ocalls.cc`), parent branch with
`restore_snapshot`: after sending the snapshot key, the parent waits on a
pipe for the child's restoration result with `select` bounded by a 5-second
timeout, then reads at most 64 bytes into `char buf[64]`, null-terminates at
the read count and compares against the fixed success string. -/

/-- `timeout_seconds` in `ocall_enc_untrusted_fork` (`timeout.tv_sec`). -/
def forkConfirmationTimeoutSeconds : Nat := 5

/-- `sizeof(buf)` for `char buf[64]` in the parent branch. -/
def forkConfirmationBufSize : Nat := 64

/-- The index of the `buf[rc] = '\x00'` store performed after
`rc = read(pipefd[0], buf, sizeof(buf))` succeeds with `rc` bytes. -/
def nulStoreIndex (rc : Nat) : Nat := rc

/-- Whether the null-terminator store `buf[rc] = '\x00'` stays inside the
64-byte buffer (valid indices are `0 ≤ i < 64`). -/
def nulStoreInBounds (rc : Nat) : Bool :=
  nulStoreIndex rc < forkConfirmationBufSize

/-- `EFAULT`, the errno value the parent sets on a confirmation timeout. -/
def EFAULT : Int := 14

/-- The bytes of the success string `"Child fork succeeded"` the child writes
to the pipe and the parent compares with `strncmp`. -/
def childForkSucceededBytes : List Nat :=
  [67, 104, 105, 108, 100, 32, 102, 111, 114, 107, 32,
   115, 117, 99, 99, 101, 101, 100, 101, 100]

/-- The C string stored in `buf` once the terminator is written at the read
count: the read bytes truncated at their first NUL byte.  This is what
`strncmp(buf, "Child fork succeeded", sizeof(buf))` compares (the literal is
20 characters, shorter than the 64-byte bound). -/
def cStringOf : List Nat → List Nat
  | [] => []
  | b :: bs => if b = 0 then [] else b :: cStringOf bs

/-- Environment of one parent-side confirmation wait: the results of the OS
calls it makes and the ambient `errno`. -/
structure ParentWaitEnv where
  /-- `errno` when entering the wait (unspecified leftover value, may be 0). -/
  initial_errno : Int
  /-- Return value of `select`. -/
  select_result : Int
  /-- `errno` as set by `select` when it fails (nonzero by the OS contract). -/
  select_errno : Int
  /-- `rc`, the return value of `read` (at most 64). -/
  read_result : Int
  /-- `errno` as set by `read` when it fails (nonzero by the OS contract). -/
  read_errno : Int
  /-- The bytes `read` placed into `buf` when `rc > 0`. -/
  pipe_bytes : List Nat
  /-- The child process id returned by `fork` (positive in the parent). -/
  pid : Int
deriving DecidableEq, Repr

/-- The parent-side wait of `ocall_enc_untrusted_fork` (`ocalls.cc`, parent
branch after `DoSnapshotKeyTransfer` succeeds): `select` with the 5-second
timeout, then `read`, then the `strncmp` comparison.  Returns the value
`ocall_enc_untrusted_fork` returns to its caller together with the final
`errno`. -/
def forkParentWaitForChild (e : ParentWaitEnv) : Int × Int :=
  if e.select_result < 0 then (-1, e.select_errno)
  else if e.select_result = 0 then (-1, EFAULT)
  else if e.read_result ≤ 0 then
    (-1, if e.read_result < 0 then e.read_errno else e.initial_errno)
  else if cStringOf e.pipe_bytes = childForkSucceededBytes then
    (e.pid, e.initial_errno)
  else (-1, e.initial_errno)

/-! ### ECDSA key subsystem

The ECDSA P-256 signing/verifying key implementation
(`asylo/crypto/ecdsa_p256_signing_key.cc`) is not part of this excerpt; only
its test suite (`asylo/crypto/ecdsa_signing_key_test.h`) is.  The definitions
below are therefore modelled from the specification of the key subsystem and
of the `AsymmetricSigningKeyProto` / `Signature` schemas, with the
cryptographic core idealized as a deterministic injective signature
relation. -/

/-- `asylo::SignatureScheme` (algorithms.proto): the unknown sentinel and the
ECDSA P-256 scheme used by these keys. -/
inductive SignatureScheme where
  | UNKNOWN_SIGNATURE_SCHEME
  | ECDSA_P256_SHA256
deriving DecidableEq, Repr

/-- `asylo::AsymmetricKeyEncoding` (keys.proto). -/
inductive AsymmetricKeyEncoding where
  | UNKNOWN_ASYMMETRIC_KEY_ENCODING
  | ASYMMETRIC_KEY_DER
  | ASYMMETRIC_KEY_PEM
deriving DecidableEq, Repr

/-- `AsymmetricSigningKeyProto::KeyType` (keys.proto). -/
inductive KeyType where
  | SIGNING_KEY
  | VERIFYING_KEY
deriving DecidableEq, Repr

/-- `asylo::AsymmetricSigningKeyProto` (keys.proto): key type tag, encoding
tag, signature scheme and raw key bytes. -/
structure AsymmetricSigningKeyProto where
  key_type : KeyType
  encoding : AsymmetricKeyEncoding
  signature_scheme : SignatureScheme
  key : List Nat
deriving DecidableEq, Repr

/-- The ECDSA payload of a `Signature` (keys.proto): two variable-length
big-endian integers R and S, as byte strings. -/
structure EcdsaSignature where
  r : List Nat
  s : List Nat
deriving DecidableEq, Repr

/-- `asylo::Signature` (keys.proto): a scheme tag plus the optional
scheme-specific ECDSA payload. -/
structure Signature where
  signature_scheme : SignatureScheme
  ecdsa_signature : Option EcdsaSignature
deriving DecidableEq, Repr

/-- Byte length of the P-256 curve order: the bound the structural check of
`Verify` places on the R and S components. -/
def kP256CoordinateSize : Nat := 32

/-- Base-256 little-endian digits of `n`, with explicit fuel (the first
argument) so the definition is structural; `natToBytes` supplies `n` itself
as fuel, which bounds the digit count. -/
def natToBytesAux : Nat → Nat → List Nat
  | 0, _ => []
  | fuel + 1, n => if n = 0 then [] else n % 256 :: natToBytesAux fuel (n / 256)

/-- Canonical byte serialization of a natural number (little-endian, no
trailing zero bytes). -/
def natToBytes (n : Nat) : List Nat := natToBytesAux n n

/-- Reads back a little-endian base-256 byte serialization. -/
def bytesToNat : List Nat → Nat
  | [] => 0
  | b :: bs => b + 256 * bytesToNat bs

/-- Injective encoding of a byte string into a natural number: a final
sentinel byte 1 keeps trailing zero bytes significant. -/
def byteListToNat (bs : List Nat) : Nat := bytesToNat (bs ++ [1])

/-- Modelled from the spec: an ECDSA P-256 signing key, reduced to its
private scalar (the curve group arithmetic is external). -/
structure EcdsaP256SigningKey where
  d : Nat
deriving DecidableEq, Repr

/-- Modelled from the spec: an ECDSA P-256 verifying key, reduced to its
public key material; equality is by underlying key material. -/
structure EcdsaP256VerifyingKey where
  q : Nat
deriving DecidableEq, Repr

/-- Modelled from the spec: `SigningKey::GetVerifyingKey` derives the
corresponding verifying key; the point multiplication is idealized as the
injective identity on the key material. -/
def EcdsaP256SigningKey.GetVerifyingKey (k : EcdsaP256SigningKey) :
    EcdsaP256VerifyingKey := ⟨k.d⟩

/-- First byte of a DER serialization (0x30, the ASN.1 SEQUENCE tag every DER
key serialization starts with). -/
def derTag : Nat := 48

/-- First byte of a PEM serialization (0x2D, the dash starting the
`-----BEGIN ...-----` armor). -/
def pemTag : Nat := 45

/-- Modelled from the spec: `VerifyingKey::SerializeToDer`. -/
def EcdsaP256VerifyingKey.SerializeToDer (k : EcdsaP256VerifyingKey) :
    List Nat := derTag :: natToBytes k.q

/-- Modelled from the spec: `VerifyingKey::SerializeToPem`. -/
def EcdsaP256VerifyingKey.SerializeToPem (k : EcdsaP256VerifyingKey) :
    List Nat := pemTag :: natToBytes k.q

/-- Modelled from the spec: `EcdsaP256VerifyingKey::CreateFromDer`.  A
mid-parse failure of the DER decoder is an INTERNAL error. -/
def EcdsaP256VerifyingKey.CreateFromDer (bytes : List Nat) :
    StatusOr EcdsaP256VerifyingKey :=
  match bytes with
  | t :: rest =>
    if t = derTag then .ok ⟨bytesToNat rest⟩
    else .error ⟨.internal, .text "could not decode DER key"⟩
  | [] => .error ⟨.internal, .text "could not decode DER key"⟩

/-- Modelled from the spec: `EcdsaP256VerifyingKey::CreateFromPem`. -/
def EcdsaP256VerifyingKey.CreateFromPem (bytes : List Nat) :
    StatusOr EcdsaP256VerifyingKey :=
  match bytes with
  | t :: rest =>
    if t = pemTag then .ok ⟨bytesToNat rest⟩
    else .error ⟨.internal, .text "could not decode PEM key"⟩
  | [] => .error ⟨.internal, .text "could not decode PEM key"⟩

/-- Modelled from the spec: `EcdsaP256SigningKey::SerializeToDer`. -/
def EcdsaP256SigningKey.SerializeToDer (k : EcdsaP256SigningKey) :
    List Nat := derTag :: natToBytes k.d

/-- Modelled from the spec: `EcdsaP256SigningKey::SerializeToPem`. -/
def EcdsaP256SigningKey.SerializeToPem (k : EcdsaP256SigningKey) :
    List Nat := pemTag :: natToBytes k.d

/-- Modelled from the spec: `EcdsaP256SigningKey::CreateFromDer`. -/
def EcdsaP256SigningKey.CreateFromDer (bytes : List Nat) :
    StatusOr EcdsaP256SigningKey :=
  match bytes with
  | t :: rest =>
    if t = derTag then .ok ⟨bytesToNat rest⟩
    else .error ⟨.internal, .text "could not decode DER key"⟩
  | [] => .error ⟨.internal, .text "could not decode DER key"⟩

/-- Modelled from the spec: `EcdsaP256SigningKey::CreateFromPem`. -/
def EcdsaP256SigningKey.CreateFromPem (bytes : List Nat) :
    StatusOr EcdsaP256SigningKey :=
  match bytes with
  | t :: rest =>
    if t = pemTag then .ok ⟨bytesToNat rest⟩
    else .error ⟨.internal, .text "could not decode PEM key"⟩
  | [] => .error ⟨.internal, .text "could not decode PEM key"⟩

/-- Modelled from the spec: `EcdsaP256VerifyingKey::CreateFromProto`
validates, in order: the key type tag matches a verifying key
(INVALID_ARGUMENT otherwise), the signature scheme is the key's scheme and
not the unknown sentinel (INVALID_ARGUMENT otherwise), the encoding is a
recognized enum value (UNIMPLEMENTED otherwise), and then dispatches on the
encoding tag; byte content not matching the tag fails INTERNAL inside
`CreateFromDer` / `CreateFromPem`. -/
def EcdsaP256VerifyingKey.CreateFromProto (p : AsymmetricSigningKeyProto) :
    StatusOr EcdsaP256VerifyingKey :=
  if p.key_type ≠ .VERIFYING_KEY then
    .error ⟨.invalidArgument, .text "key proto is not a verifying key"⟩
  else if p.signature_scheme ≠ .ECDSA_P256_SHA256 then
    .error ⟨.invalidArgument, .text "signature scheme is not supported"⟩
  else
    match p.encoding with
    | .UNKNOWN_ASYMMETRIC_KEY_ENCODING =>
      .error ⟨.unimplemented, .text "key encoding is not supported"⟩
    | .ASYMMETRIC_KEY_DER => EcdsaP256VerifyingKey.CreateFromDer p.key
    | .ASYMMETRIC_KEY_PEM => EcdsaP256VerifyingKey.CreateFromPem p.key

/-- Modelled from the spec: `EcdsaP256SigningKey::CreateFromProto`, the
signing-key mirror of the verifying-key validation. -/
def EcdsaP256SigningKey.CreateFromProto (p : AsymmetricSigningKeyProto) :
    StatusOr EcdsaP256SigningKey :=
  if p.key_type ≠ .SIGNING_KEY then
    .error ⟨.invalidArgument, .text "key proto is not a signing key"⟩
  else if p.signature_scheme ≠ .ECDSA_P256_SHA256 then
    .error ⟨.invalidArgument, .text "signature scheme is not supported"⟩
  else
    match p.encoding with
    | .UNKNOWN_ASYMMETRIC_KEY_ENCODING =>
      .error ⟨.unimplemented, .text "key encoding is not supported"⟩
    | .ASYMMETRIC_KEY_DER => EcdsaP256SigningKey.CreateFromDer p.key
    | .ASYMMETRIC_KEY_PEM => EcdsaP256SigningKey.CreateFromPem p.key

/-- Modelled from the spec: `SigningKey::Sign` over raw bytes, idealized as a
deterministic signature: the unique byte string valid for this key and
message. -/
def EcdsaP256SigningKey.SignBytes (k : EcdsaP256SigningKey)
    (message : List Nat) : List Nat :=
  natToBytes (Nat.pair k.d (byteListToNat message))

/-- Modelled from the spec: `VerifyingKey::Verify` over raw signature bytes:
any cryptographic mismatch is a verification failure, reported distinctly
from the structural INVALID_ARGUMENT rejections. -/
def EcdsaP256VerifyingKey.VerifyBytes (vk : EcdsaP256VerifyingKey)
    (message signature : List Nat) : Status :=
  if signature = natToBytes (Nat.pair vk.q (byteListToNat message)) then
    okStatus
  else ⟨.unauthenticated, .text "signature verification failed"⟩

/-- Modelled from the spec: the cryptographic acceptance of a structured
ECDSA signature, idealized as the (R, S) pair encoding the signature value
derived from the key and message. -/
def EcdsaP256VerifyingKey.cryptoAccepts (vk : EcdsaP256VerifyingKey)
    (message : List Nat) (e : EcdsaSignature) : Bool :=
  Nat.pair (byteListToNat e.r) (byteListToNat e.s) =
    Nat.pair vk.q (byteListToNat message)

/-- Modelled from the spec: `VerifyingKey::Verify` over a structured
`Signature`.  Structural validation precedes the cryptographic check: the
scheme tag must match the key's scheme, the ECDSA payload must be present,
and R and S must each have exactly the byte length bound implied by the
curve order (a missing, shorter or longer component is INVALID_ARGUMENT,
never a verification failure). -/
def EcdsaP256VerifyingKey.VerifyStructured (vk : EcdsaP256VerifyingKey)
    (message : List Nat) (signature : Signature) : Status :=
  if signature.signature_scheme ≠ .ECDSA_P256_SHA256 then
    ⟨.invalidArgument, .text "signature scheme does not match the key"⟩
  else
    match signature.ecdsa_signature with
    | none => ⟨.invalidArgument, .text "signature has no ECDSA payload"⟩
    | some e =>
      if e.r.length ≠ kP256CoordinateSize then
        ⟨.invalidArgument, .text "R value is an incorrect size"⟩
      else if e.s.length ≠ kP256CoordinateSize then
        ⟨.invalidArgument, .text "S value is an incorrect size"⟩
      else if vk.cryptoAccepts message e then okStatus
      else ⟨.unauthenticated, .text "signature verification failed"⟩

/-- Flip bit `j` of byte `i` of a byte string (the operation
`signature.back() ^= 1` and its generalizations in the tests). -/
def flipByteBit (bs : List Nat) (i j : Nat) : List Nat :=
  bs.set i (bs.getD i 0 ^^^ (1 <<< j))

/-! ### Helper lemmas -/

theorem bytesToNat_natToBytesAux (fuel : Nat) :
    ∀ n, n ≤ fuel → bytesToNat (natToBytesAux fuel n) = n := by
  induction fuel with
  | zero =>
    intro n h
    have : n = 0 := Nat.le_zero.mp h
    subst this
    simp [natToBytesAux, bytesToNat]
  | succ f ih =>
    intro n h
    by_cases hn : n = 0
    · subst hn
      simp [natToBytesAux, bytesToNat]
    · have hdiv : n / 256 < n := Nat.div_lt_self (Nat.pos_of_ne_zero hn) (by omega)
      simp only [natToBytesAux, if_neg hn, bytesToNat]
      rw [ih (n / 256) (by omega)]
      exact Nat.mod_add_div n 256

theorem bytesToNat_natToBytes (n : Nat) : bytesToNat (natToBytes n) = n :=
  bytesToNat_natToBytesAux n n (Nat.le_refl n)

theorem natToBytes_inj {a b : Nat} (h : natToBytes a = natToBytes b) :
    a = b := by
  have ha := bytesToNat_natToBytes a
  have hb := bytesToNat_natToBytes b
  rw [← ha, ← hb, h]

theorem byteListToNat_nil : byteListToNat [] = 1 := rfl

theorem byteListToNat_cons (b : Nat) (bs : List Nat) :
    byteListToNat (b :: bs) = b + 256 * byteListToNat bs := rfl

theorem byteListToNat_pos (bs : List Nat) : 1 ≤ byteListToNat bs := by
  induction bs with
  | nil => simp [byteListToNat_nil]
  | cons b bs ih => rw [byteListToNat_cons]; omega

theorem byteListToNat_inj :
    ∀ xs ys : List Nat, (∀ b ∈ xs, b < 256) → (∀ b ∈ ys, b < 256) →
      byteListToNat xs = byteListToNat ys → xs = ys := by
  intro xs
  induction xs with
  | nil =>
    intro ys _ _ h
    cases ys with
    | nil => rfl
    | cons y ys =>
      rw [byteListToNat_nil, byteListToNat_cons] at h
      have := byteListToNat_pos ys
      omega
  | cons x xs ih =>
    intro ys hx hy h
    cases ys with
    | nil =>
      rw [byteListToNat_cons, byteListToNat_nil] at h
      have := byteListToNat_pos xs
      omega
    | cons y ys =>
      rw [byteListToNat_cons, byteListToNat_cons] at h
      have hxlt : x < 256 := hx x (by simp)
      have hylt : y < 256 := hy y (by simp)
      have hxy : x = y ∧ byteListToNat xs = byteListToNat ys := by
        constructor <;> omega
      rcases hxy with ⟨h1, h2⟩
      subst h1
      rw [ih ys (fun b hb => hx b (by simp [hb]))
        (fun b hb => hy b (by simp [hb])) h2]

theorem xor_one_shiftLeft_ne (b j : Nat) : b ^^^ (1 <<< j) ≠ b := by
  intro h
  have h2 : b ^^^ (b ^^^ (1 <<< j)) = b ^^^ b := congrArg (b ^^^ ·) h
  rw [← Nat.xor_assoc, Nat.xor_self, Nat.zero_xor] at h2
  rw [Nat.one_shiftLeft] at h2
  exact (Nat.pos_pow_of_pos j (by omega)).ne' h2

theorem getD_set_self (bs : List Nat) :
    ∀ i v, i < bs.length → (bs.set i v).getD i 0 = v := by
  induction bs with
  | nil => intro i v h; simp at h
  | cons b t ih =>
    intro i v h
    cases i with
    | zero => rfl
    | succ n =>
      simp only [List.set_cons_succ, List.getD_cons_succ]
      exact ih n v (by simpa using h)

theorem getD_mem (bs : List Nat) : ∀ i, i < bs.length → bs.getD i 0 ∈ bs := by
  induction bs with
  | nil => intro i h; simp at h
  | cons b t ih =>
    intro i h
    cases i with
    | zero => simp
    | succ n =>
      simp only [List.getD_cons_succ]
      exact List.mem_cons_of_mem _ (ih n (by simpa using h))

theorem flipByteBit_ne (bs : List Nat) (i j : Nat) (h : i < bs.length) :
    flipByteBit bs i j ≠ bs := by
  intro heq
  have h2 := congrArg (fun l => l.getD i 0) heq
  simp only [flipByteBit] at h2
  rw [getD_set_self bs i _ h] at h2
  exact xor_one_shiftLeft_ne (bs.getD i 0) j h2

theorem flipByteBit_bytes {bs : List Nat} (hb : ∀ b ∈ bs, b < 256)
    {i j : Nat} (hj : j < 8) : ∀ b ∈ flipByteBit bs i j, b < 256 := by
  intro b hmem
  rcases List.mem_or_eq_of_mem_set hmem with h | h
  · exact hb b h
  · subst h
    by_cases hi : i < bs.length
    · have h1 : bs.getD i 0 < 2 ^ 8 := hb _ (getD_mem bs i hi)
      have h2 : 1 <<< j < 2 ^ 8 := by
        rw [Nat.one_shiftLeft]
        exact Nat.pow_lt_pow_right (by omega) hj
      exact Nat.xor_lt_two_pow h1 h2
    · rw [List.getD_eq_default bs 0 (by omega)]
      have h2 : (0 : Nat) ^^^ (1 <<< j) = 1 <<< j := Nat.zero_xor _
      rw [h2, Nat.one_shiftLeft]
      calc 2 ^ j < 2 ^ 8 := Nat.pow_lt_pow_right (by omega) hj
        _ ≤ 256 := by omega

/-! ### Claims about the lifecycle state machine -/

/-- C1: for every pair of states (expected, new) and every current enclave
state, `TrustedApplication::VerifyAndSetState(expected, new)` returns a
FAILED_PRECONDITION error carrying both the current and the expected state
and leaves the state field unchanged whenever the current state differs from
`expected`, and sets the state to `new` and returns success whenever the
current state equals `expected`. -/
theorem verifyAndSetState_contract (app : TrustedApplication)
    (expected new : EnclaveState) :
    (app.enclave_state_ ≠ expected →
      app.VerifyAndSetState expected new =
        (⟨.failedPrecondition,
          .stateMismatch app.enclave_state_ expected⟩, app)) ∧
    (app.enclave_state_ = expected →
      app.VerifyAndSetState expected new =
        (okStatus, ⟨new⟩)) := by
  constructor
  · intro h
    simp [TrustedApplication.VerifyAndSetState, h]
  · intro h
    simp [TrustedApplication.VerifyAndSetState, h]

/-- Witness for C1: a mismatched call from `kRunning` fails and mutates
nothing; a matched call from `kUninitialized` transitions. -/
theorem verifyAndSetState_contract_witness :
    TrustedApplication.VerifyAndSetState ⟨.kRunning⟩ .kUninitialized
        .kInternalInitializing =
      (⟨.failedPrecondition, .stateMismatch .kRunning .kUninitialized⟩,
        ⟨.kRunning⟩) ∧
    TrustedApplication.VerifyAndSetState ⟨.kUninitialized⟩ .kUninitialized
        .kInternalInitializing =
      (okStatus, ⟨.kInternalInitializing⟩) :=
  ⟨(verifyAndSetState_contract ⟨.kRunning⟩ .kUninitialized
      .kInternalInitializing).1 (by decide),
   (verifyAndSetState_contract ⟨.kUninitialized⟩ .kUninitialized
      .kInternalInitializing).2 rfl⟩

/-- C2: `__asylo_user_init` succeeds only when the enclave state is
`kUninitialized`; for a parseable config in any other state it reports a
precondition error and changes nothing; and whenever user/internal
initialization fails after the state advanced past `kUninitialized`, the
state is set back to `kUninitialized`, the error is serialized to the
caller, and a later retry of initialization can succeed. -/
theorem asylo_user_init_contract (app : TrustedApplication) (parses : Bool)
    (ui : Status) :
    ((asylo_user_init app parses ui).1.code = .ok →
      app.enclave_state_ = .kUninitialized) ∧
    (app.enclave_state_ ≠ .kUninitialized → parses = true →
      asylo_user_init app parses ui =
        (⟨.failedPrecondition,
          .stateMismatch app.enclave_state_ .kUninitialized⟩, app)) ∧
    (app.enclave_state_ = .kUninitialized → parses = true → ui.code ≠ .ok →
      asylo_user_init app parses ui = (ui, ⟨.kUninitialized⟩) ∧
      asylo_user_init (asylo_user_init app parses ui).2 true okStatus =
        (okStatus, ⟨.kRunning⟩)) := by
  obtain ⟨s⟩ := app
  cases parses
  · refine ⟨fun h => ?_, fun h hp => by simp at hp, fun h hp => by simp at hp⟩
    simp [asylo_user_init] at h
  · by_cases hs : s = .kUninitialized
    · subst hs
      by_cases hui : ui.code = .ok
      · refine ⟨fun _ => rfl, fun h _ => absurd rfl h, fun _ _ h => absurd hui h⟩
      · refine ⟨fun h => rfl, fun h _ => absurd rfl h, fun _ _ _ => ?_⟩
        constructor
        · simp [asylo_user_init, TrustedApplication.InitializeInternal,
            TrustedApplication.VerifyAndSetState, TrustedApplication.SetState,
            okStatus, hui]
        · have : (asylo_user_init ⟨.kUninitialized⟩ true ui).2 =
              ⟨.kUninitialized⟩ := by
            simp [asylo_user_init, TrustedApplication.InitializeInternal,
              TrustedApplication.VerifyAndSetState,
              TrustedApplication.SetState, okStatus, hui]
          rw [this]
          rfl
    · refine ⟨fun h => ?_, fun _ _ => ?_, fun h => absurd h hs⟩
      · exfalso
        simp [asylo_user_init, TrustedApplication.VerifyAndSetState, hs,
          okStatus] at h
      · simp [asylo_user_init, TrustedApplication.VerifyAndSetState, hs,
          okStatus]

/-- Witness for C2: with a parseable config, initialization from `kRunning`
fails with a precondition error carrying both states and mutates nothing;
initialization from `kUninitialized` whose user hook fails reverts to
`kUninitialized`, serializes that error, and a retry succeeds. -/
theorem asylo_user_init_contract_witness :
    asylo_user_init ⟨.kRunning⟩ true okStatus =
      (⟨.failedPrecondition, .stateMismatch .kRunning .kUninitialized⟩,
        ⟨.kRunning⟩) ∧
    (asylo_user_init ⟨.kUninitialized⟩ true
        ⟨.internal, .text "user init failed"⟩ =
      (⟨.internal, .text "user init failed"⟩, ⟨.kUninitialized⟩) ∧
    asylo_user_init
        (asylo_user_init ⟨.kUninitialized⟩ true
          ⟨.internal, .text "user init failed"⟩).2 true okStatus =
      (okStatus, ⟨.kRunning⟩)) :=
  ⟨(asylo_user_init_contract ⟨.kRunning⟩ true okStatus).2.1
      (by decide) rfl,
   (asylo_user_init_contract ⟨.kUninitialized⟩ true
      ⟨.internal, .text "user init failed"⟩).2.2 rfl rfl (by decide)⟩

/-- C3: `__asylo_user_fini` with a parseable input fails with a precondition
error and leaves the state unchanged unless the enclave state is `kRunning`;
when it is `kRunning`, the state is first set to `kFinalizing` before the
user finalization hook runs, and afterwards the state is set to `kFinalized`
unconditionally, whatever status the finalization hook returned. -/
theorem asylo_user_fini_contract (app : TrustedApplication) (parses : Bool)
    (ufr : Status) :
    (app.enclave_state_ ≠ .kRunning → parses = true →
      asylo_user_fini app parses ufr =
        (⟨.failedPrecondition,
          .stateMismatch app.enclave_state_ .kRunning⟩, app)) ∧
    (app.enclave_state_ = .kRunning →
      (app.VerifyAndSetState .kRunning .kFinalizing).2.enclave_state_ =
        .kFinalizing ∧
      (parses = true →
        asylo_user_fini app parses ufr = (ufr, ⟨.kFinalized⟩))) := by
  obtain ⟨s⟩ := app
  constructor
  · intro h hp
    subst hp
    simp [asylo_user_fini, TrustedApplication.VerifyAndSetState, h, okStatus]
  · intro h
    subst h
    refine ⟨rfl, fun hp => ?_⟩
    subst hp
    simp [asylo_user_fini, TrustedApplication.VerifyAndSetState,
      TrustedApplication.SetState, okStatus]

/-- Witness for C3: finalizing from `kUninitialized` fails with a
precondition error carrying both states and mutates nothing; finalizing from
`kRunning` runs the hook in state `kFinalizing` and ends `kFinalized` even
when the hook fails. -/
theorem asylo_user_fini_contract_witness :
    asylo_user_fini ⟨.kUninitialized⟩ true okStatus =
      (⟨.failedPrecondition, .stateMismatch .kUninitialized .kRunning⟩,
        ⟨.kUninitialized⟩) ∧
    (TrustedApplication.VerifyAndSetState ⟨.kRunning⟩ .kRunning
        .kFinalizing).2.enclave_state_ = .kFinalizing ∧
    asylo_user_fini ⟨.kRunning⟩ true ⟨.internal, .text "user fini failed"⟩ =
      (⟨.internal, .text "user fini failed"⟩, ⟨.kFinalized⟩) :=
  ⟨(asylo_user_fini_contract ⟨.kUninitialized⟩ true okStatus).1
      (by decide) rfl,
   ((asylo_user_fini_contract ⟨.kRunning⟩ true
      ⟨.internal, .text "user fini failed"⟩).2 rfl).1,
   ((asylo_user_fini_contract ⟨.kRunning⟩ true
      ⟨.internal, .text "user fini failed"⟩).2 rfl).2 rfl⟩

/-- C4: `__asylo_handle_signal` invokes the enclave-side signal handler only
when the enclave state is between `kRunning` and `kFinalizing` inclusive and
the translated signal number is not in the enclave's signal mask; for any
state outside that window it returns a nonzero rejection code without
running handler code; and for a masked signal (parseable input, translatable
signal, state in the window) it returns -1 without invoking the handler. -/
theorem asylo_handle_signal_contract (app : TrustedApplication)
    (d : SignalDelivery) :
    ((asylo_handle_signal app d).2 = true →
      (EnclaveState.kRunning.idx ≤ app.GetState.idx ∧
        app.GetState.idx ≤ EnclaveState.kFinalizing.idx) ∧
      d.bridged_signum ∉ d.mask) ∧
    ((app.GetState.idx < EnclaveState.kRunning.idx ∨
        EnclaveState.kFinalizing.idx < app.GetState.idx) →
      (asylo_handle_signal app d).1 ≠ 0 ∧
      (asylo_handle_signal app d).2 = false) ∧
    (d.signal_parses = true →
      EnclaveState.kRunning.idx ≤ app.GetState.idx →
      app.GetState.idx ≤ EnclaveState.kFinalizing.idx →
      0 ≤ d.bridged_signum → d.bridged_signum ∈ d.mask →
      asylo_handle_signal app d = (-1, false)) := by
  obtain ⟨ps, sn, mask, hok⟩ := d
  cases ps
  · refine ⟨fun h => by simp [asylo_handle_signal] at h,
      fun h => by simp [asylo_handle_signal], fun h => by simp at h⟩
  · by_cases hw : (app.GetState.idx < EnclaveState.kRunning.idx ∨
        EnclaveState.kFinalizing.idx < app.GetState.idx)
    · refine ⟨fun h => ?_, fun _ => by simp [asylo_handle_signal, hw],
        fun _ h1 h2 => ?_⟩
      · simp [asylo_handle_signal, hw] at h
      · exfalso
        rcases hw with hw | hw <;> omega
    · push_neg at hw
      by_cases hneg : sn < 0
      · refine ⟨fun h => ?_, fun h => ?_, fun _ _ _ h3 => ?_⟩
        · simp [asylo_handle_signal, hw, hneg,
            not_or.mpr ⟨not_lt.mpr hw.1, not_lt.mpr hw.2⟩] at h
        · rcases h with h | h <;> [exact absurd h (not_lt.mpr hw.1);
            exact absurd h (not_lt.mpr hw.2)]
        · exact absurd hneg (not_lt.mpr h3)
      · by_cases hm : sn ∈ mask
        · refine ⟨fun h => ?_, fun h => ?_, fun _ _ _ _ _ => ?_⟩
          · simp [asylo_handle_signal,
              not_or.mpr ⟨not_lt.mpr hw.1, not_lt.mpr hw.2⟩, hneg, hm] at h
          · rcases h with h | h <;> [exact absurd h (not_lt.mpr hw.1);
              exact absurd h (not_lt.mpr hw.2)]
          · simp [asylo_handle_signal,
              not_or.mpr ⟨not_lt.mpr hw.1, not_lt.mpr hw.2⟩, hneg, hm]
        · refine ⟨fun _ => ⟨hw, hm⟩, fun h => ?_, fun _ _ _ _ hm2 => ?_⟩
          · rcases h with h | h <;> [exact absurd h (not_lt.mpr hw.1);
              exact absurd h (not_lt.mpr hw.2)]
          · exact absurd hm2 hm

/-- Witness for C4: a signal delivered in state `kUninitialized` is rejected
with code 2 and no handler runs; a masked signal in state `kRunning` is
rejected with -1 and no handler runs; an unmasked signal in state `kRunning`
does reach the handler. -/
theorem asylo_handle_signal_contract_witness :
    ((asylo_handle_signal ⟨.kUninitialized⟩ ⟨true, 10, [], true⟩).1 ≠ 0 ∧
      (asylo_handle_signal ⟨.kUninitialized⟩ ⟨true, 10, [], true⟩).2 =
        false) ∧
    asylo_handle_signal ⟨.kRunning⟩ ⟨true, 10, [10], true⟩ = (-1, false) ∧
    ((EnclaveState.kRunning.idx ≤
        (TrustedApplication.GetState ⟨.kRunning⟩).idx ∧
      (TrustedApplication.GetState ⟨.kRunning⟩).idx ≤
        EnclaveState.kFinalizing.idx) ∧
      (10 : Int) ∉ ([] : List Int)) :=
  ⟨(asylo_handle_signal_contract ⟨.kUninitialized⟩
      ⟨true, 10, [], true⟩).2.1 (by decide),
   (asylo_handle_signal_contract ⟨.kRunning⟩
      ⟨true, 10, [10], true⟩).2.2 rfl (by decide) (by decide) (by decide)
      (by decide),
   (asylo_handle_signal_contract ⟨.kRunning⟩
      ⟨true, 10, [], true⟩).1 (by decide)⟩

/-! ### Claims about the parent-side fork confirmation wait -/

/-- Counterexample for C5 as stated: when `select` succeeds, `read` returns
one byte that does not match the success string, the parent returns -1 but
leaves `errno` untouched — here entering the wait with `errno = 0`, the call
returns -1 with `errno` still 0, i.e. with no OS-level error recorded, which
refutes the claim that every failure shape sets `errno`. -/
theorem forkParentWait_errno_counterexample :
    cStringOf (ParentWaitEnv.pipe_bytes ⟨0, 1, 0, 1, 0, [88], 42⟩) ≠
      childForkSucceededBytes ∧
    forkParentWaitForChild ⟨0, 1, 0, 1, 0, [88], 42⟩ = (-1, 0) := by
  decide

/-- C5 (amended): the parent waits on the confirmation pipe with the
5-second `select` timeout, and every failure shape of that wait returns -1
to the fork caller, never the child pid: a `select` error returns -1 with
`select`'s errno, a timeout returns -1 setting `errno = EFAULT`, a failed
read returns -1 with `read`'s errno, and an EOF read or a string not
matching "Child fork succeeded" return -1 with `errno` left unchanged; the
child pid is returned only when the matching success string was read. -/
theorem forkParentWait_failure_contract (e : ParentWaitEnv) :
    forkConfirmationTimeoutSeconds = 5 ∧
    (e.select_result < 0 → forkParentWaitForChild e = (-1, e.select_errno)) ∧
    (e.select_result = 0 → forkParentWaitForChild e = (-1, EFAULT)) ∧
    (0 < e.select_result → e.read_result < 0 →
      forkParentWaitForChild e = (-1, e.read_errno)) ∧
    (0 < e.select_result → e.read_result = 0 →
      forkParentWaitForChild e = (-1, e.initial_errno)) ∧
    (0 < e.select_result → 0 < e.read_result →
      cStringOf e.pipe_bytes ≠ childForkSucceededBytes →
      forkParentWaitForChild e = (-1, e.initial_errno)) ∧
    ((forkParentWaitForChild e).1 ≠ -1 →
      forkParentWaitForChild e = (e.pid, e.initial_errno) ∧
      cStringOf e.pipe_bytes = childForkSucceededBytes) := by
  refine ⟨rfl, fun h => ?_, fun h => ?_, fun h1 h2 => ?_, fun h1 h2 => ?_,
    fun h1 h2 h3 => ?_, fun h => ?_⟩
  · simp [forkParentWaitForChild, h]
  · simp [forkParentWaitForChild, h]
  · simp [forkParentWaitForChild, not_lt.mpr (le_of_lt h1), h1.ne',
      le_of_lt h2, h2]
  · simp [forkParentWaitForChild, not_lt.mpr (le_of_lt h1), h1.ne', h2]
  · simp [forkParentWaitForChild, not_lt.mpr (le_of_lt h1), h1.ne',
      not_le.mpr h2, h3]
  · by_cases h1 : e.select_result < 0
    · exact absurd (by simp [forkParentWaitForChild, h1]) h
    · by_cases h2 : e.select_result = 0
      · exact absurd (by simp [forkParentWaitForChild, h1, h2]) h
      · by_cases h3 : e.read_result ≤ 0
        · exact absurd (by simp [forkParentWaitForChild, h1, h2, h3]) h
        · by_cases h4 : cStringOf e.pipe_bytes = childForkSucceededBytes
          · exact ⟨by simp [forkParentWaitForChild, h1, h2, h3, h4], h4⟩
          · exact absurd (by simp [forkParentWaitForChild, h1, h2, h3, h4]) h

/-- Witness for C5 (amended): concrete instances of each failure shape —
select error, timeout, failed read, EOF read, and a non-matching string —
each returning -1, plus a successful confirmation returning the pid. -/
theorem forkParentWait_failure_contract_witness :
    forkParentWaitForChild ⟨7, -1, 9, 0, 0, [], 42⟩ = (-1, 9) ∧
    forkParentWaitForChild ⟨7, 0, 0, 0, 0, [], 42⟩ = (-1, EFAULT) ∧
    forkParentWaitForChild ⟨7, 1, 0, -1, 5, [], 42⟩ = (-1, 5) ∧
    forkParentWaitForChild ⟨7, 1, 0, 0, 0, [], 42⟩ = (-1, 7) ∧
    forkParentWaitForChild ⟨7, 1, 0, 1, 0, [88], 42⟩ = (-1, 7) ∧
    forkParentWaitForChild ⟨7, 1, 0, 20, 0, childForkSucceededBytes, 42⟩ =
      (42, 7) :=
  ⟨(forkParentWait_failure_contract ⟨7, -1, 9, 0, 0, [], 42⟩).2.1
      (by decide),
   (forkParentWait_failure_contract ⟨7, 0, 0, 0, 0, [], 42⟩).2.2.1 rfl,
   (forkParentWait_failure_contract ⟨7, 1, 0, -1, 5, [], 42⟩).2.2.2.1
      (by decide) (by decide),
   (forkParentWait_failure_contract ⟨7, 1, 0, 0, 0, [], 42⟩).2.2.2.2.1
      (by decide) rfl,
   (forkParentWait_failure_contract ⟨7, 1, 0, 1, 0, [88], 42⟩).2.2.2.2.2.1
      (by decide) (by decide) (by decide),
   ((forkParentWait_failure_contract
        ⟨7, 1, 0, 20, 0, childForkSucceededBytes, 42⟩).2.2.2.2.2.2
      (by decide)).1⟩

/-- C10: the claim that the null-terminator store `buf[rc] = 0` after
`rc = read(pipefd[0], buf, sizeof(buf))` stays inside the 64-byte buffer for
every `0 < rc ≤ 64` fails at `rc = 64`: when `read` fills the whole buffer,
the store is one past the end. -/
theorem nulStore_out_of_bounds_at_full_read :
    0 < 64 ∧ 64 ≤ forkConfirmationBufSize ∧ nulStoreInBounds 64 = false := by
  decide

/-! ### Claims about the ECDSA key subsystem -/

theorem verifyingKey_createFromDer_mismatch {bytes : List Nat}
    (h : bytes.head? ≠ some derTag) :
    (EcdsaP256VerifyingKey.CreateFromDer bytes).code = .internal := by
  cases bytes with
  | nil => rfl
  | cons t rest =>
    simp only [List.head?_cons, ne_eq, Option.some.injEq] at h
    simp [EcdsaP256VerifyingKey.CreateFromDer, h, StatusOr.code]

theorem verifyingKey_createFromPem_mismatch {bytes : List Nat}
    (h : bytes.head? ≠ some pemTag) :
    (EcdsaP256VerifyingKey.CreateFromPem bytes).code = .internal := by
  cases bytes with
  | nil => rfl
  | cons t rest =>
    simp only [List.head?_cons, ne_eq, Option.some.injEq] at h
    simp [EcdsaP256VerifyingKey.CreateFromPem, h, StatusOr.code]

theorem signingKey_createFromDer_mismatch {bytes : List Nat}
    (h : bytes.head? ≠ some derTag) :
    (EcdsaP256SigningKey.CreateFromDer bytes).code = .internal := by
  cases bytes with
  | nil => rfl
  | cons t rest =>
    simp only [List.head?_cons, ne_eq, Option.some.injEq] at h
    simp [EcdsaP256SigningKey.CreateFromDer, h, StatusOr.code]

theorem signingKey_createFromPem_mismatch {bytes : List Nat}
    (h : bytes.head? ≠ some pemTag) :
    (EcdsaP256SigningKey.CreateFromPem bytes).code = .internal := by
  cases bytes with
  | nil => rfl
  | cons t rest =>
    simp only [List.head?_cons, ne_eq, Option.some.injEq] at h
    simp [EcdsaP256SigningKey.CreateFromPem, h, StatusOr.code]

/-- C6: `CreateFromProto`, for both signing and verifying keys, rejects each
of the four malformed proto shapes with its error kind: an unknown signature
scheme is INVALID_ARGUMENT, a key_type tag for the opposite key kind is
INVALID_ARGUMENT, an unrecognized encoding enum is UNIMPLEMENTED, and an
encoding tag that does not match the key byte content (the bytes do not
start with that encoding's leading byte) is INTERNAL. -/
theorem createFromProto_error_kinds (p : AsymmetricSigningKeyProto) :
    (p.signature_scheme = .UNKNOWN_SIGNATURE_SCHEME →
      (EcdsaP256VerifyingKey.CreateFromProto p).code = .invalidArgument ∧
      (EcdsaP256SigningKey.CreateFromProto p).code = .invalidArgument) ∧
    (p.key_type = .SIGNING_KEY →
      (EcdsaP256VerifyingKey.CreateFromProto p).code = .invalidArgument) ∧
    (p.key_type = .VERIFYING_KEY →
      (EcdsaP256SigningKey.CreateFromProto p).code = .invalidArgument) ∧
    (p.signature_scheme = .ECDSA_P256_SHA256 →
      p.encoding = .UNKNOWN_ASYMMETRIC_KEY_ENCODING →
      (p.key_type = .VERIFYING_KEY →
        (EcdsaP256VerifyingKey.CreateFromProto p).code = .unimplemented) ∧
      (p.key_type = .SIGNING_KEY →
        (EcdsaP256SigningKey.CreateFromProto p).code = .unimplemented)) ∧
    (p.signature_scheme = .ECDSA_P256_SHA256 →
      p.encoding = .ASYMMETRIC_KEY_DER → p.key.head? ≠ some derTag →
      (p.key_type = .VERIFYING_KEY →
        (EcdsaP256VerifyingKey.CreateFromProto p).code = .internal) ∧
      (p.key_type = .SIGNING_KEY →
        (EcdsaP256SigningKey.CreateFromProto p).code = .internal)) ∧
    (p.signature_scheme = .ECDSA_P256_SHA256 →
      p.encoding = .ASYMMETRIC_KEY_PEM → p.key.head? ≠ some pemTag →
      (p.key_type = .VERIFYING_KEY →
        (EcdsaP256VerifyingKey.CreateFromProto p).code = .internal) ∧
      (p.key_type = .SIGNING_KEY →
        (EcdsaP256SigningKey.CreateFromProto p).code = .internal)) := by
  obtain ⟨kt, enc, ss, key⟩ := p
  refine ⟨fun hss => ?_, fun hkt => ?_, fun hkt => ?_,
    fun hss henc => ?_, fun hss henc hk => ?_, fun hss henc hk => ?_⟩
  · subst hss
    cases kt <;>
      simp [EcdsaP256VerifyingKey.CreateFromProto,
        EcdsaP256SigningKey.CreateFromProto, StatusOr.code]
  · subst hkt
    simp [EcdsaP256VerifyingKey.CreateFromProto, StatusOr.code]
  · subst hkt
    simp [EcdsaP256SigningKey.CreateFromProto, StatusOr.code]
  · subst hss
    subst henc
    refine ⟨fun hkt => ?_, fun hkt => ?_⟩ <;> subst hkt <;>
      simp [EcdsaP256VerifyingKey.CreateFromProto,
        EcdsaP256SigningKey.CreateFromProto, StatusOr.code]
  · subst hss
    subst henc
    refine ⟨fun hkt => ?_, fun hkt => ?_⟩ <;> subst hkt
    · simpa [EcdsaP256VerifyingKey.CreateFromProto] using
        verifyingKey_createFromDer_mismatch hk
    · simpa [EcdsaP256SigningKey.CreateFromProto] using
        signingKey_createFromDer_mismatch hk
  · subst hss
    subst henc
    refine ⟨fun hkt => ?_, fun hkt => ?_⟩ <;> subst hkt
    · simpa [EcdsaP256VerifyingKey.CreateFromProto] using
        verifyingKey_createFromPem_mismatch hk
    · simpa [EcdsaP256SigningKey.CreateFromProto] using
        signingKey_createFromPem_mismatch hk

/-- Witness for C6: concrete protos exhibiting the four malformed shapes and
their error kinds, for both key kinds. -/
theorem createFromProto_error_kinds_witness :
    ((EcdsaP256VerifyingKey.CreateFromProto
        ⟨.VERIFYING_KEY, .ASYMMETRIC_KEY_PEM, .UNKNOWN_SIGNATURE_SCHEME,
          [45]⟩).code = .invalidArgument ∧
      (EcdsaP256SigningKey.CreateFromProto
        ⟨.VERIFYING_KEY, .ASYMMETRIC_KEY_PEM, .UNKNOWN_SIGNATURE_SCHEME,
          [45]⟩).code = .invalidArgument) ∧
    (EcdsaP256VerifyingKey.CreateFromProto
        ⟨.SIGNING_KEY, .ASYMMETRIC_KEY_PEM, .ECDSA_P256_SHA256,
          [45]⟩).code = .invalidArgument ∧
    (EcdsaP256SigningKey.CreateFromProto
        ⟨.VERIFYING_KEY, .ASYMMETRIC_KEY_PEM, .ECDSA_P256_SHA256,
          [45]⟩).code = .invalidArgument ∧
    (EcdsaP256VerifyingKey.CreateFromProto
        ⟨.VERIFYING_KEY, .UNKNOWN_ASYMMETRIC_KEY_ENCODING,
          .ECDSA_P256_SHA256, [45]⟩).code = .unimplemented ∧
    (EcdsaP256SigningKey.CreateFromProto
        ⟨.SIGNING_KEY, .UNKNOWN_ASYMMETRIC_KEY_ENCODING,
          .ECDSA_P256_SHA256, [45]⟩).code = .unimplemented ∧
    (EcdsaP256VerifyingKey.CreateFromProto
        ⟨.VERIFYING_KEY, .ASYMMETRIC_KEY_DER, .ECDSA_P256_SHA256,
          [45]⟩).code = .internal ∧
    (EcdsaP256SigningKey.CreateFromProto
        ⟨.SIGNING_KEY, .ASYMMETRIC_KEY_PEM, .ECDSA_P256_SHA256,
          [48]⟩).code = .internal :=
  ⟨(createFromProto_error_kinds
      ⟨.VERIFYING_KEY, .ASYMMETRIC_KEY_PEM, .UNKNOWN_SIGNATURE_SCHEME,
        [45]⟩).1 rfl,
   (createFromProto_error_kinds
      ⟨.SIGNING_KEY, .ASYMMETRIC_KEY_PEM, .ECDSA_P256_SHA256,
        [45]⟩).2.1 rfl,
   (createFromProto_error_kinds
      ⟨.VERIFYING_KEY, .ASYMMETRIC_KEY_PEM, .ECDSA_P256_SHA256,
        [45]⟩).2.2.1 rfl,
   ((createFromProto_error_kinds
      ⟨.VERIFYING_KEY, .UNKNOWN_ASYMMETRIC_KEY_ENCODING, .ECDSA_P256_SHA256,
        [45]⟩).2.2.2.1 rfl rfl).1 rfl,
   ((createFromProto_error_kinds
      ⟨.SIGNING_KEY, .UNKNOWN_ASYMMETRIC_KEY_ENCODING, .ECDSA_P256_SHA256,
        [45]⟩).2.2.2.1 rfl rfl).2 rfl,
   ((createFromProto_error_kinds
      ⟨.VERIFYING_KEY, .ASYMMETRIC_KEY_DER, .ECDSA_P256_SHA256,
        [45]⟩).2.2.2.2.1 rfl rfl (by decide)).1 rfl,
   ((createFromProto_error_kinds
      ⟨.SIGNING_KEY, .ASYMMETRIC_KEY_PEM, .ECDSA_P256_SHA256,
        [48]⟩).2.2.2.2.2 rfl rfl (by decide)).2 rfl⟩

/-- C7: for every verifying key and every structured `Signature` whose scheme
tag mismatches the key's scheme, whose ECDSA payload is absent, or whose R
or S component is missing, shorter, or longer than the byte-length bound
implied by the curve order, `Verify` returns an INVALID_ARGUMENT error —
never a verification failure, which only arises for structurally valid
signatures. -/
theorem verifyStructured_structural_validation (vk : EcdsaP256VerifyingKey)
    (msg : List Nat) (sig : Signature) :
    (sig.signature_scheme ≠ .ECDSA_P256_SHA256 →
      (vk.VerifyStructured msg sig).code = .invalidArgument) ∧
    (sig.ecdsa_signature = none →
      (vk.VerifyStructured msg sig).code = .invalidArgument) ∧
    (∀ e, sig.ecdsa_signature = some e →
      e.r.length ≠ kP256CoordinateSize ∨ e.s.length ≠ kP256CoordinateSize →
      (vk.VerifyStructured msg sig).code = .invalidArgument) ∧
    ((vk.VerifyStructured msg sig).code = .unauthenticated →
      sig.signature_scheme = .ECDSA_P256_SHA256 ∧
      ∃ e, sig.ecdsa_signature = some e ∧
        e.r.length = kP256CoordinateSize ∧
        e.s.length = kP256CoordinateSize) := by
  obtain ⟨ss, payload⟩ := sig
  by_cases hss : ss = .ECDSA_P256_SHA256
  · subst hss
    cases payload with
    | none =>
      refine ⟨fun h => rfl, fun _ => rfl, fun e he => by simp at he,
        fun h => ?_⟩
      simp [EcdsaP256VerifyingKey.VerifyStructured, Status.code] at h
    | some e =>
      refine ⟨fun h => absurd rfl h, fun h => by simp at h,
        fun e2 he2 hlen => ?_, fun h => ?_⟩
      · have he : e2 = e := by simpa using he2.symm
        rw [he] at hlen
        rcases hlen with hr | hs
        · simp [EcdsaP256VerifyingKey.VerifyStructured, hr]
        · by_cases hr : e.r.length = kP256CoordinateSize
          · simp [EcdsaP256VerifyingKey.VerifyStructured, hr, hs]
          · simp [EcdsaP256VerifyingKey.VerifyStructured, hr]
      · by_cases hr : e.r.length = kP256CoordinateSize
        · by_cases hs : e.s.length = kP256CoordinateSize
          · exact ⟨rfl, e, rfl, hr, hs⟩
          · simp [EcdsaP256VerifyingKey.VerifyStructured, hr, hs] at h
        · simp [EcdsaP256VerifyingKey.VerifyStructured, hr] at h
  · refine ⟨fun _ => ?_, fun _ => ?_, fun e he hlen => ?_, fun h => ?_⟩
    · simp [EcdsaP256VerifyingKey.VerifyStructured, hss]
    · simp [EcdsaP256VerifyingKey.VerifyStructured, hss]
    · simp [EcdsaP256VerifyingKey.VerifyStructured, hss]
    · simp [EcdsaP256VerifyingKey.VerifyStructured, hss, Status.code] at h

/-- Witness for C7: a wrong scheme tag, a missing payload, and a too-short R
are each rejected INVALID_ARGUMENT; a structurally valid but
cryptographically wrong signature is the only shape that yields a
verification failure. -/
theorem verifyStructured_structural_validation_witness :
    (EcdsaP256VerifyingKey.VerifyStructured ⟨0⟩ []
      ⟨.UNKNOWN_SIGNATURE_SCHEME,
        some ⟨List.replicate 32 0, List.replicate 32 0⟩⟩).code =
      .invalidArgument ∧
    (EcdsaP256VerifyingKey.VerifyStructured ⟨0⟩ []
      ⟨.ECDSA_P256_SHA256, none⟩).code = .invalidArgument ∧
    (EcdsaP256VerifyingKey.VerifyStructured ⟨0⟩ []
      ⟨.ECDSA_P256_SHA256,
        some ⟨[1, 2, 3], List.replicate 32 0⟩⟩).code = .invalidArgument ∧
    ((EcdsaP256VerifyingKey.VerifyStructured ⟨0⟩ []
        ⟨.ECDSA_P256_SHA256,
          some ⟨List.replicate 32 0, List.replicate 32 0⟩⟩).code =
        .unauthenticated ∧
      ∃ e, (Signature.mk .ECDSA_P256_SHA256
          (some ⟨List.replicate 32 0, List.replicate 32 0⟩)).ecdsa_signature =
            some e ∧
        e.r.length = kP256CoordinateSize ∧
        e.s.length = kP256CoordinateSize) :=
  ⟨(verifyStructured_structural_validation ⟨0⟩ []
      ⟨.UNKNOWN_SIGNATURE_SCHEME,
        some ⟨List.replicate 32 0, List.replicate 32 0⟩⟩).1 (by decide),
   (verifyStructured_structural_validation ⟨0⟩ []
      ⟨.ECDSA_P256_SHA256, none⟩).2.1 rfl,
   (verifyStructured_structural_validation ⟨0⟩ []
      ⟨.ECDSA_P256_SHA256, some ⟨[1, 2, 3], List.replicate 32 0⟩⟩).2.2.1
      ⟨[1, 2, 3], List.replicate 32 0⟩ rfl (by decide),
   (fun h =>
     ⟨h, ((verifyStructured_structural_validation ⟨0⟩ []
        ⟨.ECDSA_P256_SHA256,
          some ⟨List.replicate 32 0, List.replicate 32 0⟩⟩).2.2.2 h).2⟩)
     (by decide)⟩

/-- C8: for every signing key and byte-string message, `Verify` with the
key's own derived verifying key accepts `Sign`'s signature, and flipping any
single bit of the produced signature, or of the message, makes `Verify`
fail — there is no partial acceptance. -/
theorem signAndVerify_bitflip (k : EcdsaP256SigningKey) (msg : List Nat)
    (hmsg : ∀ b ∈ msg, b < 256) :
    k.GetVerifyingKey.VerifyBytes msg (k.SignBytes msg) = okStatus ∧
    (∀ i j, i < (k.SignBytes msg).length → j < 8 →
      (k.GetVerifyingKey.VerifyBytes msg
        (flipByteBit (k.SignBytes msg) i j)).isOk = false) ∧
    (∀ i j, i < msg.length → j < 8 →
      (k.GetVerifyingKey.VerifyBytes (flipByteBit msg i j)
        (k.SignBytes msg)).isOk = false) := by
  refine ⟨?_, fun i j hi hj => ?_, fun i j hi hj => ?_⟩
  · simp [EcdsaP256VerifyingKey.VerifyBytes, EcdsaP256SigningKey.SignBytes,
      EcdsaP256SigningKey.GetVerifyingKey]
  · have hne : flipByteBit (k.SignBytes msg) i j ≠
        natToBytes (Nat.pair k.GetVerifyingKey.q (byteListToNat msg)) := by
      have : natToBytes (Nat.pair k.GetVerifyingKey.q (byteListToNat msg)) =
          k.SignBytes msg := rfl
      rw [this]
      exact flipByteBit_ne _ i j hi
    simp [EcdsaP256VerifyingKey.VerifyBytes, hne, Status.isOk]
  · have hne : k.SignBytes msg ≠
        natToBytes (Nat.pair k.GetVerifyingKey.q
          (byteListToNat (flipByteBit msg i j))) := by
      intro heq
      have hpair := natToBytes_inj heq
      have hmsg2 := (Nat.pair_eq_pair.mp hpair).2
      have : msg = flipByteBit msg i j :=
        byteListToNat_inj msg (flipByteBit msg i j) hmsg
          (flipByteBit_bytes hmsg hj) hmsg2
      exact flipByteBit_ne msg i j hi this.symm
    simp [EcdsaP256VerifyingKey.VerifyBytes, hne, Status.isOk]

/-- Witness for C8: a concrete key and one-byte message whose signature
verifies, and whose single-bit flips — in the signature or in the message —
are rejected. -/
theorem signAndVerify_bitflip_witness :
    EcdsaP256VerifyingKey.VerifyBytes
        (EcdsaP256SigningKey.GetVerifyingKey ⟨1⟩) [0]
        (EcdsaP256SigningKey.SignBytes ⟨1⟩ [0]) = okStatus ∧
    (EcdsaP256VerifyingKey.VerifyBytes
        (EcdsaP256SigningKey.GetVerifyingKey ⟨1⟩) [0]
        (flipByteBit (EcdsaP256SigningKey.SignBytes ⟨1⟩ [0]) 0 0)).isOk =
      false ∧
    (EcdsaP256VerifyingKey.VerifyBytes
        (EcdsaP256SigningKey.GetVerifyingKey ⟨1⟩) (flipByteBit [0] 0 0)
        (EcdsaP256SigningKey.SignBytes ⟨1⟩ [0])).isOk = false :=
  ⟨(signAndVerify_bitflip ⟨1⟩ [0] (by decide)).1,
   (signAndVerify_bitflip ⟨1⟩ [0] (by decide)).2.1 0 0 (by decide)
      (by decide),
   (signAndVerify_bitflip ⟨1⟩ [0] (by decide)).2.2 0 0 (by decide)
      (by decide)⟩

/-- C9: for every verifying key and every signing key,
`CreateFromDer(SerializeToDer(K))` yields `K` back, and
`CreateFromPem(SerializeToPem(K))` likewise — the serialization round-trip
is exact in both encodings. -/
theorem serialization_roundtrip (vk : EcdsaP256VerifyingKey)
    (sk : EcdsaP256SigningKey) :
    EcdsaP256VerifyingKey.CreateFromDer vk.SerializeToDer = .ok vk ∧
    EcdsaP256VerifyingKey.CreateFromPem vk.SerializeToPem = .ok vk ∧
    EcdsaP256SigningKey.CreateFromDer sk.SerializeToDer = .ok sk ∧
    EcdsaP256SigningKey.CreateFromPem sk.SerializeToPem = .ok sk := by
  obtain ⟨q⟩ := vk
  obtain ⟨d⟩ := sk
  refine ⟨?_, ?_, ?_, ?_⟩ <;>
    simp [EcdsaP256VerifyingKey.CreateFromDer,
      EcdsaP256VerifyingKey.SerializeToDer,
      EcdsaP256VerifyingKey.CreateFromPem,
      EcdsaP256VerifyingKey.SerializeToPem,
      EcdsaP256SigningKey.CreateFromDer,
      EcdsaP256SigningKey.SerializeToDer,
      EcdsaP256SigningKey.CreateFromPem,
      EcdsaP256SigningKey.SerializeToPem,
      bytesToNat_natToBytes]

end Asylo
